import Mathlib

/-!
Shallow embedding of `app/app.go` from mattermost-server: the Elasticsearch
lifecycle listeners registered by `StartElasticsearch`, the job-subsystem
bootstrapper `initJobs`, the lazily persisted diagnostic identifier
`EnsureDiagnosticId`, and the install-date accessor `getSystemInstallDate`.

Side effects are made explicit: a dispatched background task (`a.Srv.Go(...)`)
is represented by the list of Elasticsearch operations its body performs when
run, in the order the body performs them; storage traffic is represented by a
trace of store operations; log output by a list of logged messages.
-/

namespace MattermostApp

/-- The Elasticsearch operations a dispatched task can invoke
(`a.Elasticsearch.Start()` / `a.Elasticsearch.Stop()`). -/
inductive ESOp where
  | start
  | stop
deriving DecidableEq, Repr

/-- The fields of `model.ElasticsearchSettings` read by `StartElasticsearch`
(pointers in Go, dereferenced at every use; modelled as plain values). -/
structure ElasticsearchSettings where
  EnableIndexing : Bool
  ConnectionUrl : String
  Username : String
  Password : String
  Sniff : Bool
deriving DecidableEq, Repr

/-- The slice of `model.Config` the listeners read. -/
structure Config where
  ElasticsearchSettings : ElasticsearchSettings
deriving DecidableEq, Repr

/-- The connection-parameter comparison of the third branch of the config
listener in `StartElasticsearch`, in source order:
`*old.Password != *new.Password || *old.Username != *new.Username ||
 *old.ConnectionUrl != *new.ConnectionUrl || *old.Sniff != *new.Sniff`. -/
def connectionChanged (o n : ElasticsearchSettings) : Bool :=
  (o.Password != n.Password) || (o.Username != n.Username) ||
    (o.ConnectionUrl != n.ConnectionUrl) || (o.Sniff != n.Sniff)

/-- The config listener registered by `StartElasticsearch`
(`app.go` lines 141-166).  The result is the list of background tasks the
listener dispatches via `a.Srv.Go`, each task given by the sequence of
Elasticsearch operations its body performs when run.  In the third branch the
dispatched closure re-checks `*oldConfig.ElasticsearchSettings.EnableIndexing`
at run time; the captured snapshot is the same value, so the body performs
`[stop, start]` when old indexing was enabled and nothing otherwise. -/
def elasticsearchConfigListener (oldConfig newConfig : Config) : List (List ESOp) :=
  if !oldConfig.ElasticsearchSettings.EnableIndexing &&
      newConfig.ElasticsearchSettings.EnableIndexing then
    [[ESOp.start]]
  else if oldConfig.ElasticsearchSettings.EnableIndexing &&
      !newConfig.ElasticsearchSettings.EnableIndexing then
    [[ESOp.stop]]
  else if connectionChanged oldConfig.ElasticsearchSettings
      newConfig.ElasticsearchSettings then
    [if oldConfig.ElasticsearchSettings.EnableIndexing then
      [ESOp.stop, ESOp.start]
    else
      []]
  else
    []

/-- The Elasticsearch operations actually invoked in response to one
configuration change: the concatenation, over the dispatched tasks, of the
operations each task performs. -/
def esConfigOps (oldConfig newConfig : Config) : List ESOp :=
  (elasticsearchConfigListener oldConfig newConfig).flatten

/-- The license in `a.License()`; only presence versus absence is read by the
license listener, but the value is carried to show that. -/
structure License where
  Id : String
deriving DecidableEq, Repr

/-- The license listener registered by `StartElasticsearch`
(`app.go` lines 168-182): if `a.License() != nil` it dispatches a task that
runs `Start`, otherwise a task that runs `Stop`. -/
def elasticsearchLicenseListener (license : Option License) : List (List ESOp) :=
  match license with
  | some _ => [[ESOp.start]]
  | none => [[ESOp.stop]]

/-- One step of a dispatched task body: the op is invoked against the
Elasticsearch capability; `behavior` gives the error the call returns, if any.
As in the source (`if err := a.Elasticsearch.Start(); err != nil
{ mlog.Error(err.Error()) }`) the error is written to the error log and
consumed; nothing is returned to any caller and the call is not retried. -/
def runTask (behavior : ESOp → Option String) : List ESOp → List ESOp × List String
  | [] => ([], [])
  | op :: rest =>
    let r := runTask behavior rest
    match behavior op with
    | some e => (op :: r.1, e :: r.2)
    | none => (op :: r.1, r.2)

/-- Run every task dispatched in response to one event, collecting the
Elasticsearch calls performed and the messages logged.  The listener callback
itself has no error channel (a Go `func(old, new *model.Config)` or `func()`),
so nothing can propagate back to the configuration-apply or license-change
caller. -/
def runEvent (behavior : ESOp → Option String) : List (List ESOp) → List ESOp × List String
  | [] => ([], [])
  | t :: ts =>
    let a := runTask behavior t
    let b := runEvent behavior ts
    (a.1 ++ b.1, a.2 ++ b.2)

/-- The top-level effects `StartElasticsearch` performs, in order
(`app.go` lines 134-183). -/
inductive StartupEffect where
  | dispatch (ops : List ESOp)
  | addConfigListener (l : Config → Config → List (List ESOp))
  | addLicenseListener (l : Option License → List (List ESOp))

/-- `StartElasticsearch` (`app.go` lines 134-183): it dispatches one task whose
body runs `Start`, then registers the config listener, then registers the
license listener.  The current config and license are parameters to show that
the body reads neither of them. -/
def StartElasticsearch (currentConfig : Config) (license : Option License) :
    List StartupEffect :=
  [StartupEffect.dispatch [ESOp.start],
   StartupEffect.addConfigListener elasticsearchConfigListener,
   StartupEffect.addLicenseListener elasticsearchLicenseListener]

/-- The typed application error `model.AppError`, restricted to the fields this
file needs (`Where`, `Id`, `StatusCode`; the detailed-error message carried
from `strconv` is abstracted to a string). -/
structure AppError where
  Where : String
  Id : String
  DetailedError : String
  StatusCode : Nat
deriving DecidableEq, Repr

/-- `model.StringMap`: a Go `map[string]string`, as an association list. -/
def StringMap : Type := List (String × String)

/-- Go map indexing `props[k]`: the stored value, or `""` when absent. -/
def StringMap.get (m : StringMap) (k : String) : String :=
  match List.find? (fun p => p.1 == k) m with
  | some p => p.2
  | none => ""

/-- Storing a row under key `k` (the effect of a successful
`Store.System().Save`). -/
def StringMap.set (m : StringMap) (k v : String) : StringMap :=
  (k, v) :: List.filter (fun p => p.1 != k) m

/-- `model.SYSTEM_DIAGNOSTIC_ID`, the fixed key of the diagnostic id row. -/
def SYSTEM_DIAGNOSTIC_ID : String := "DiagnosticId"

/-- `model.SYSTEM_INSTALLATION_DATE_KEY`, the fixed key of the
installation-date row. -/
def SYSTEM_INSTALLATION_DATE_KEY : String := "InstallationDate"

/-- A storage operation issued to `Store.System()`, for counting I/O. -/
inductive StoreOp where
  | get
  | save (name value : String)
deriving DecidableEq, Repr

/-- The state `EnsureDiagnosticId` works on: the in-memory
`a.Srv.diagnosticId` and the durable system-properties table the store reads
and writes. -/
structure DiagState where
  diagnosticId : String
  storage : StringMap

/-- `EnsureDiagnosticId` (`app.go` lines 100-116).  `getErr` is the error the
`Store.System().Get()` call returns (when `none`, the call succeeds and yields
the current table); `saveErr` is the error the `Save` call would return;
`freshId` is the value `model.NewId()` would generate.  Returns the new state
and the trace of storage operations issued.  Faithful to the source: a failed
`Get` leaves everything untouched; the result of `Save` is discarded
(`<-a.Srv.Store.System().Save(systemId)`), and `a.Srv.diagnosticId = id` runs
afterwards regardless. -/
def EnsureDiagnosticId (st : DiagState) (getErr saveErr : Option AppError)
    (freshId : String) : DiagState × List StoreOp :=
  if st.diagnosticId != "" then
    (st, [])
  else
    match getErr with
    | some _ => (st, [StoreOp.get])
    | none =>
      let props := st.storage
      let id := StringMap.get props SYSTEM_DIAGNOSTIC_ID
      if id.length == 0 then
        let id := freshId
        let storage1 :=
          match saveErr with
          | none => StringMap.set props SYSTEM_DIAGNOSTIC_ID id
          | some _ => props
        (⟨id, storage1⟩, [StoreOp.get, StoreOp.save SYSTEM_DIAGNOSTIC_ID id])
      else
        (⟨id, st.storage⟩, [StoreOp.get])

/-- A sequence of `EnsureDiagnosticId` calls, each with its own environment
(get outcome, save outcome, fresh id), threading the state and concatenating
the storage traces. -/
def ensureCalls (st : DiagState) :
    List (Option AppError × Option AppError × String) → DiagState × List StoreOp
  | [] => (st, [])
  | e :: rest =>
    let r := EnsureDiagnosticId st e.1 e.2.1 e.2.2
    let s := ensureCalls r.1 rest
    (s.1, r.2 ++ s.2)

/-- The six optional job-producer slots of `jobs.JobServer` set by `initJobs`,
over an arbitrary producer type `π`. -/
structure JobProducers (π : Type) where
  DataRetentionJob : Option π
  MessageExportJob : Option π
  ElasticsearchAggregator : Option π
  ElasticsearchIndexer : Option π
  LdapSync : Option π
  Migrations : Option π
deriving DecidableEq, Repr

/-- The slice of `jobs.JobServer` that `initJobs` constructs: the producer
slots plus the two derived collections. -/
structure JobServer (π ω σ : Type) where
  producers : JobProducers π
  Workers : Option ω
  Schedulers : Option σ

/-- `jobs.NewJobServer`: a fresh job server with nothing attached. -/
def NewJobServer (π ω σ : Type) : JobServer π ω σ :=
  ⟨⟨none, none, none, none, none, none⟩, none, none⟩

/-- `initJobs` (`app.go` lines 68-90).  Each `jobs*Interface` package variable
is either absent (`nil`) or a factory from the app handle to a producer; an
absent one is skipped with no other effect.  `InitWorkers` and
`InitSchedulers` live in the `jobs` package, outside this fragment; modelled
from the spec as abstract functions of the producer slots the server ended up
with ("computed from whichever producers ended up attached"). -/
def initJobs {α π ω σ : Type} (fakeApp : α)
    (jobsDataRetentionJobInterface : Option (α → π))
    (jobsMessageExportJobInterface : Option (α → π))
    (jobsElasticsearchAggregatorInterface : Option (α → π))
    (jobsElasticsearchIndexerInterface : Option (α → π))
    (jobsLdapSyncInterface : Option (α → π))
    (jobsMigrationsInterface : Option (α → π))
    (InitWorkers : JobProducers π → ω) (InitSchedulers : JobProducers π → σ) :
    JobServer π ω σ :=
  let jobs0 := NewJobServer π ω σ
  let jobs1 :=
    match jobsDataRetentionJobInterface with
    | some f => { jobs0 with producers.DataRetentionJob := some (f fakeApp) }
    | none => jobs0
  let jobs2 :=
    match jobsMessageExportJobInterface with
    | some f => { jobs1 with producers.MessageExportJob := some (f fakeApp) }
    | none => jobs1
  let jobs3 :=
    match jobsElasticsearchAggregatorInterface with
    | some f => { jobs2 with producers.ElasticsearchAggregator := some (f fakeApp) }
    | none => jobs2
  let jobs4 :=
    match jobsElasticsearchIndexerInterface with
    | some f => { jobs3 with producers.ElasticsearchIndexer := some (f fakeApp) }
    | none => jobs3
  let jobs5 :=
    match jobsLdapSyncInterface with
    | some f => { jobs4 with producers.LdapSync := some (f fakeApp) }
    | none => jobs4
  let jobs6 :=
    match jobsMigrationsInterface with
    | some f => { jobs5 with producers.Migrations := some (f fakeApp) }
    | none => jobs5
  let jobs7 := { jobs6 with Workers := some (InitWorkers jobs6.producers) }
  { jobs7 with Schedulers := some (InitSchedulers jobs7.producers) }

/-- A row of the system-properties table (`model.System`). -/
structure SystemRow where
  Name : String
  Value : String
deriving DecidableEq, Repr

/-- `strconv.ParseInt(s, 10, 64)`, as the parsed value or `none` on error: an
empty string, a lone sign, a non-digit character, or a value outside the
signed 64-bit range all make Go return a non-nil error. -/
def ParseInt (s : String) : Option Int :=
  let cs := s.toList
  let signed :=
    match cs with
    | '+' :: rest => (false, rest)
    | '-' :: rest => (true, rest)
    | _ => (false, cs)
  match signed with
  | (neg, ds) =>
    if ds.isEmpty then
      none
    else if ds.all Char.isDigit then
      let magnitude : Nat := ds.foldl (fun a c => a * 10 + (c.toNat - 48)) 0
      let v : Int := if neg then -(magnitude : Int) else (magnitude : Int)
      if -(2 ^ 63) ≤ v ∧ v ≤ 2 ^ 63 - 1 then some v else none
    else
      none

/-- The fixed typed error `getSystemInstallDate` builds on a parse failure:
`model.NewAppError("getSystemInstallDate",
"app.system_install_date.parse_int.app_error", nil, err.Error(),
http.StatusInternalServerError)`. -/
def installDateParseError (detail : String) : AppError :=
  ⟨"getSystemInstallDate", "app.system_install_date.parse_int.app_error",
    detail, 500⟩

/-- `getSystemInstallDate` (`app.go` lines 185-196).  `GetByName` is the store
lookup `Store.System().GetByName`, a function from the key to either an error
or the row; the parse-error detail `err.Error()` is abstracted by
`parseDetail`.  Returns the Go pair `(int64, *model.AppError)`. -/
def getSystemInstallDate (GetByName : String → Except AppError SystemRow)
    (parseDetail : String) : Int × Option AppError :=
  match GetByName SYSTEM_INSTALLATION_DATE_KEY with
  | Except.error e => (0, some e)
  | Except.ok systemData =>
    match ParseInt systemData.Value with
    | none => (0, some (installDateParseError parseDetail))
    | some value => (value, none)

/-- Case analysis of the config listener: its output is a function of the
(old enabled, new enabled, connection changed) triple alone. -/
theorem elasticsearchConfigListener_eq (o n : Config) :
    elasticsearchConfigListener o n =
      match o.ElasticsearchSettings.EnableIndexing,
          n.ElasticsearchSettings.EnableIndexing,
          connectionChanged o.ElasticsearchSettings n.ElasticsearchSettings with
      | false, true, _ => [[ESOp.start]]
      | true, false, _ => [[ESOp.stop]]
      | true, true, true => [[ESOp.stop, ESOp.start]]
      | false, false, true => [[]]
      | _, _, false => [] := by
  cases hoE : o.ElasticsearchSettings.EnableIndexing <;>
    cases hnE : n.ElasticsearchSettings.EnableIndexing <;>
      cases hc : connectionChanged o.ElasticsearchSettings n.ElasticsearchSettings <;>
        simp [elasticsearchConfigListener, hoE, hnE, hc]

/-- C1: the config listener chooses its action solely from the (old, new) pair:
the Elasticsearch operations invoked are exactly `Start` iff indexing went
false to true, exactly `Stop` iff it went true to false, exactly `Stop` then
`Start` iff it stayed true and a connection parameter (ConnectionUrl,
Username, Password, Sniff) changed, and nothing in every other case —
including both-false regardless of connection-parameter changes (there the
listener dispatches a task whose body performs no operation).  Moreover the
dispatched tasks are a deterministic function of the
(enabled, connection-params) delta. -/
theorem config_listener_transition_table :
    (∀ o n : Config,
      (esConfigOps o n = [ESOp.start] ↔
        (o.ElasticsearchSettings.EnableIndexing = false ∧
          n.ElasticsearchSettings.EnableIndexing = true)) ∧
      (esConfigOps o n = [ESOp.stop] ↔
        (o.ElasticsearchSettings.EnableIndexing = true ∧
          n.ElasticsearchSettings.EnableIndexing = false)) ∧
      (esConfigOps o n = [ESOp.stop, ESOp.start] ↔
        (o.ElasticsearchSettings.EnableIndexing = true ∧
          n.ElasticsearchSettings.EnableIndexing = true ∧
          connectionChanged o.ElasticsearchSettings n.ElasticsearchSettings = true)) ∧
      (esConfigOps o n = [] ↔
        ¬(o.ElasticsearchSettings.EnableIndexing = false ∧
            n.ElasticsearchSettings.EnableIndexing = true) ∧
        ¬(o.ElasticsearchSettings.EnableIndexing = true ∧
            n.ElasticsearchSettings.EnableIndexing = false) ∧
        ¬(o.ElasticsearchSettings.EnableIndexing = true ∧
            n.ElasticsearchSettings.EnableIndexing = true ∧
            connectionChanged o.ElasticsearchSettings n.ElasticsearchSettings = true))) ∧
    (∀ o₁ n₁ o₂ n₂ : Config,
      o₁.ElasticsearchSettings.EnableIndexing = o₂.ElasticsearchSettings.EnableIndexing →
      n₁.ElasticsearchSettings.EnableIndexing = n₂.ElasticsearchSettings.EnableIndexing →
      connectionChanged o₁.ElasticsearchSettings n₁.ElasticsearchSettings =
        connectionChanged o₂.ElasticsearchSettings n₂.ElasticsearchSettings →
      elasticsearchConfigListener o₁ n₁ = elasticsearchConfigListener o₂ n₂) := by
  constructor
  · intro o n
    cases hoE : o.ElasticsearchSettings.EnableIndexing <;>
      cases hnE : n.ElasticsearchSettings.EnableIndexing <;>
        cases hc : connectionChanged o.ElasticsearchSettings n.ElasticsearchSettings <;>
          simp [esConfigOps, elasticsearchConfigListener, hoE, hnE, hc]
  · intro o₁ n₁ o₂ n₂ h₁ h₂ h₃
    rw [elasticsearchConfigListener_eq, elasticsearchConfigListener_eq, h₁, h₂, h₃]

/-- Witness for C1 at concrete configurations: enabling indexing dispatches
exactly a Start, and two distinct pairs with the same delta (disabled to
enabled, connection changed via different parameters) produce identical
dispatches. -/
theorem config_listener_transition_table_witness :
    esConfigOps ⟨⟨false, "u", "", "", false⟩⟩ ⟨⟨true, "u", "", "", false⟩⟩ =
      [ESOp.start] ∧
    elasticsearchConfigListener ⟨⟨false, "u1", "", "", false⟩⟩ ⟨⟨true, "u2", "", "", false⟩⟩ =
      elasticsearchConfigListener ⟨⟨false, "", "", "p1", false⟩⟩ ⟨⟨true, "", "", "p2", false⟩⟩ :=
  ⟨((config_listener_transition_table.1 _ _).1).mpr ⟨rfl, rfl⟩,
    config_listener_transition_table.2 _ _ _ _ rfl rfl (by decide)⟩

/-- C2: when indexing stays enabled and a connection parameter changes, the
listener dispatches exactly one task, and that single task's body is the
sequence Stop, Start — Stop is invoked first and runs to completion before
Start is invoked, both within the same task. -/
theorem connection_change_dispatches_stop_then_start (o n : Config)
    (h₁ : o.ElasticsearchSettings.EnableIndexing = true)
    (h₂ : n.ElasticsearchSettings.EnableIndexing = true)
    (h₃ : connectionChanged o.ElasticsearchSettings n.ElasticsearchSettings = true) :
    elasticsearchConfigListener o n = [[ESOp.stop, ESOp.start]] := by
  simp [elasticsearchConfigListener, h₁, h₂, h₃]

/-- Witness for C2: both snapshots enabled, Sniff flipped. -/
theorem connection_change_dispatches_stop_then_start_witness :
    elasticsearchConfigListener ⟨⟨true, "", "", "", false⟩⟩ ⟨⟨true, "", "", "", true⟩⟩ =
      [[ESOp.stop, ESOp.start]] :=
  connection_change_dispatches_stop_then_start _ _ rfl rfl (by decide)

/-- C3: the license listener dispatches a Start-task iff a license is present
and a Stop-task iff it is absent, never operations of both kinds, and its
output depends only on presence versus absence of the license. -/
theorem license_listener_presence :
    (∀ lic : Option License,
      (elasticsearchLicenseListener lic = [[ESOp.start]] ↔ lic.isSome = true) ∧
      (elasticsearchLicenseListener lic = [[ESOp.stop]] ↔ lic = none) ∧
      ¬(ESOp.start ∈ (elasticsearchLicenseListener lic).flatten ∧
        ESOp.stop ∈ (elasticsearchLicenseListener lic).flatten)) ∧
    (∀ l₁ l₂ : Option License, l₁.isSome = l₂.isSome →
      elasticsearchLicenseListener l₁ = elasticsearchLicenseListener l₂) := by
  constructor
  · intro lic
    cases lic <;> simp [elasticsearchLicenseListener]
  · intro l₁ l₂ h
    cases l₁ <;> cases l₂ <;> simp_all [elasticsearchLicenseListener]

/-- Witness for C3: a present license dispatches Start, and any two present
licenses behave identically. -/
theorem license_listener_presence_witness :
    elasticsearchLicenseListener (some ⟨"lic1"⟩) = [[ESOp.start]] ∧
    elasticsearchLicenseListener (some ⟨"lic1"⟩) =
      elasticsearchLicenseListener (some ⟨"lic2"⟩) :=
  ⟨((license_listener_presence.1 (some ⟨"lic1"⟩)).1).mpr rfl,
    license_listener_presence.2 (some ⟨"lic1"⟩) (some ⟨"lic2"⟩) rfl⟩

/-- Running a task performs exactly its ops, in order, whatever errors the
capability returns, and logs exactly the errors returned. -/
theorem runTask_eq (behavior : ESOp → Option String) (ops : List ESOp) :
    runTask behavior ops = (ops, ops.filterMap behavior) := by
  induction ops with
  | nil => rfl
  | cons op rest ih =>
    cases h : behavior op <;> simp [runTask, ih, h, List.filterMap_cons]

/-- Running all tasks of one event performs exactly the flattened ops and logs
exactly the errors the capability returned. -/
theorem runEvent_eq (behavior : ESOp → Option String) (tasks : List (List ESOp)) :
    runEvent behavior tasks = (tasks.flatten, tasks.flatten.filterMap behavior) := by
  induction tasks with
  | nil => rfl
  | cons t ts ih => simp [runEvent, runTask_eq, ih, List.filterMap_append]

/-- C8: for every configuration or license event and every error behavior of
the Elasticsearch capability, the calls performed by the dispatched tasks are
exactly those determined by the event alone — failures neither abort the task,
nor trigger a retry, nor change any later call — and every error a call
returns is written to the error log.  The listener callbacks and task bodies
return nothing (Go `func()` closures), so the errors are consumed inside the
tasks and cannot reach the configuration-apply or license-change caller. -/
theorem dispatched_errors_logged_not_propagated :
    ∀ (behavior : ESOp → Option String) (o n : Config) (lic : Option License),
      (runEvent behavior (elasticsearchConfigListener o n)).1 = esConfigOps o n ∧
      (runEvent behavior (elasticsearchConfigListener o n)).2 =
        (esConfigOps o n).filterMap behavior ∧
      (runEvent behavior (elasticsearchLicenseListener lic)).1 =
        (elasticsearchLicenseListener lic).flatten ∧
      (runEvent behavior (elasticsearchLicenseListener lic)).2 =
        ((elasticsearchLicenseListener lic).flatten).filterMap behavior := by
  intro behavior o n lic
  refine ⟨?_, ?_, ?_, ?_⟩ <;> simp [runEvent_eq, esConfigOps]

/-- C9: `StartElasticsearch` always performs, in order: one dispatch of a task
that runs a single Start, then registration of the config listener, then
registration of the license listener — for every current configuration and
every license state, so the initial Start is unconditional and precedes both
registrations. -/
theorem start_elasticsearch_initial_start_unconditional :
    ∀ (cfg : Config) (lic : Option License),
      StartElasticsearch cfg lic =
        [StartupEffect.dispatch [ESOp.start],
         StartupEffect.addConfigListener elasticsearchConfigListener,
         StartupEffect.addLicenseListener elasticsearchLicenseListener] :=
  fun _ _ => rfl

instance : DecidableEq StringMap :=
  inferInstanceAs (DecidableEq (List (String × String)))

instance : DecidableEq DiagState := fun a b =>
  decidable_of_iff (a.diagnosticId = b.diagnosticId ∧ a.storage = b.storage)
    (by cases a; cases b; simp)

/-- Reading back the key just stored yields the stored value. -/
theorem StringMap.get_set_self (m : StringMap) (k v : String) :
    StringMap.get (StringMap.set m k v) k = v := by
  simp [StringMap.get, StringMap.set, List.find?]

/-- The fast path of `EnsureDiagnosticId`: a non-empty in-memory id returns
immediately with no storage traffic and no change. -/
theorem ensure_fast_path (st : DiagState) (getErr saveErr : Option AppError)
    (freshId : String) (h : st.diagnosticId ≠ "") :
    EnsureDiagnosticId st getErr saveErr freshId = (st, []) := by
  simp [EnsureDiagnosticId, h]

/-- C4: the four cases of `EnsureDiagnosticId`.  (1) A non-empty in-memory id
returns immediately: no storage operation, no state change.  (2) An empty
in-memory id with a successful read of a non-empty stored value caches that
value, with exactly one read and no write.  (3) An empty in-memory id with a
successful read finding no (or an empty) stored value generates exactly one
fresh identifier, persists it under the fixed diagnostic-id key, and caches
it — when the save succeeds, storage then holds the fresh value under that
key.  (4) A failed read changes nothing: the in-memory value stays empty, so
a later call runs the whole path again. -/
theorem ensure_diagnostic_id_cases :
    ∀ (st : DiagState) (getErr saveErr : Option AppError) (freshId : String),
      (st.diagnosticId ≠ "" →
        EnsureDiagnosticId st getErr saveErr freshId = (st, [])) ∧
      (st.diagnosticId = "" → getErr = none →
        StringMap.get st.storage SYSTEM_DIAGNOSTIC_ID ≠ "" →
        EnsureDiagnosticId st getErr saveErr freshId =
          (⟨StringMap.get st.storage SYSTEM_DIAGNOSTIC_ID, st.storage⟩,
            [StoreOp.get])) ∧
      (st.diagnosticId = "" → getErr = none →
        StringMap.get st.storage SYSTEM_DIAGNOSTIC_ID = "" →
        (EnsureDiagnosticId st getErr saveErr freshId).1.diagnosticId = freshId ∧
        (EnsureDiagnosticId st getErr saveErr freshId).2 =
          [StoreOp.get, StoreOp.save SYSTEM_DIAGNOSTIC_ID freshId] ∧
        (saveErr = none →
          StringMap.get (EnsureDiagnosticId st getErr saveErr freshId).1.storage
            SYSTEM_DIAGNOSTIC_ID = freshId)) ∧
      (st.diagnosticId = "" → ∀ e, getErr = some e →
        EnsureDiagnosticId st getErr saveErr freshId = (st, [StoreOp.get])) := by
  intro st getErr saveErr freshId
  refine ⟨ensure_fast_path st getErr saveErr freshId, ?_, ?_, ?_⟩
  · intro h₁ h₂ h₃
    have hlen : (StringMap.get st.storage SYSTEM_DIAGNOSTIC_ID).length ≠ 0 := by
      intro hc
      exact h₃ (String.ext (List.eq_nil_of_length_eq_zero hc))
    simp [EnsureDiagnosticId, h₁, h₂, hlen]
  · intro h₁ h₂ h₃
    have hlen : (StringMap.get st.storage SYSTEM_DIAGNOSTIC_ID).length = 0 := by
      rw [h₃]
      rfl
    refine ⟨?_, ?_, ?_⟩
    · cases saveErr <;> simp [EnsureDiagnosticId, h₁, h₂, hlen]
    · cases saveErr <;> simp [EnsureDiagnosticId, h₁, h₂, hlen]
    · intro hs
      subst hs
      simp [EnsureDiagnosticId, h₁, h₂, hlen, StringMap.get_set_self]
  · intro h₁ e h₂
    simp [EnsureDiagnosticId, h₁, h₂]

/-- Witness for C4 at concrete states: reading a stored value caches it; a
failed read leaves the empty state untouched apart from the attempted read. -/
theorem ensure_diagnostic_id_cases_witness :
    EnsureDiagnosticId ⟨"", [(SYSTEM_DIAGNOSTIC_ID, "abc123")]⟩ none none "fresh" =
      (⟨"abc123", [(SYSTEM_DIAGNOSTIC_ID, "abc123")]⟩, [StoreOp.get]) ∧
    EnsureDiagnosticId ⟨"", []⟩ (some ⟨"w", "i", "d", 500⟩) none "fresh" =
      (⟨"", []⟩, [StoreOp.get]) := by
  constructor
  · have h := (ensure_diagnostic_id_cases ⟨"", [(SYSTEM_DIAGNOSTIC_ID, "abc123")]⟩
      none none "fresh").2.1 rfl rfl (by decide)
    rw [h]
    decide
  · exact (ensure_diagnostic_id_cases ⟨"", []⟩ (some ⟨"w", "i", "d", 500⟩)
      none "fresh").2.2.2 rfl ⟨"w", "i", "d", 500⟩ rfl

/-- C5: once the in-memory diagnostic id is non-empty, any number of further
`EnsureDiagnosticId` calls — whatever their read and write outcomes and fresh
candidates would be — issue zero storage operations and leave the state,
including the cached value, identical. -/
theorem ensure_idempotent_after_fill :
    ∀ (st : DiagState) (envs : List (Option AppError × Option AppError × String)),
      st.diagnosticId ≠ "" → ensureCalls st envs = (st, []) := by
  intro st envs h
  induction envs with
  | nil => rfl
  | cons e rest ih =>
    simp [ensureCalls, ensure_fast_path st e.1 e.2.1 e.2.2 h, ih]

/-- Witness for C5: two calls after a filled cache do nothing. -/
theorem ensure_idempotent_after_fill_witness :
    ensureCalls ⟨"id1", []⟩
        [(none, none, "f1"), (some ⟨"w", "i", "d", 500⟩, none, "f2")] =
      (⟨"id1", []⟩, []) :=
  ensure_idempotent_after_fill ⟨"id1", []⟩
    [(none, none, "f1"), (some ⟨"w", "i", "d", 500⟩, none, "f2")] (by decide)

/-- C10: when generation runs (empty in-memory id, successful read, no stored
value) and the Save fails, the freshly generated identifier is still cached:
the in-memory id becomes the fresh value, durable storage is unchanged (so it
still holds no value under the key), and the trace shows the save was
attempted. -/
theorem save_failure_ignored (st : DiagState) (e : AppError) (freshId : String)
    (h₁ : st.diagnosticId = "")
    (h₂ : StringMap.get st.storage SYSTEM_DIAGNOSTIC_ID = "") :
    (EnsureDiagnosticId st none (some e) freshId).1.diagnosticId = freshId ∧
    (EnsureDiagnosticId st none (some e) freshId).1.storage = st.storage ∧
    (EnsureDiagnosticId st none (some e) freshId).2 =
      [StoreOp.get, StoreOp.save SYSTEM_DIAGNOSTIC_ID freshId] := by
  refine ⟨?_, ?_, ?_⟩ <;> simp [EnsureDiagnosticId, h₁, h₂]

/-- Witness for C10: a failed save against empty storage still caches the
fresh id in memory while storage stays empty. -/
theorem save_failure_ignored_witness :
    (EnsureDiagnosticId ⟨"", []⟩ none (some ⟨"w", "i", "d", 500⟩) "fresh").1.diagnosticId =
        "fresh" ∧
    (EnsureDiagnosticId ⟨"", []⟩ none (some ⟨"w", "i", "d", 500⟩) "fresh").1.storage =
        ([] : StringMap) ∧
    (EnsureDiagnosticId ⟨"", []⟩ none (some ⟨"w", "i", "d", 500⟩) "fresh").2 =
      [StoreOp.get, StoreOp.save SYSTEM_DIAGNOSTIC_ID "fresh"] :=
  save_failure_ignored ⟨"", []⟩ ⟨"w", "i", "d", 500⟩ "fresh" rfl (by decide)

/-- C6: `initJobs` attaches each of the six producers exactly when its factory
is present — an absent factory leaves its slot empty and has no other effect,
and the construction is total, so absence is never an error — and only after
all six presence checks does it materialize the worker set and the scheduler
set, both computed from the producer slots the server ended up with. -/
theorem init_jobs_attaches_iff_present :
    ∀ {α π ω σ : Type} (fakeApp : α)
      (dataRetention messageExport esAggregator esIndexer ldapSync migrations :
        Option (α → π))
      (InitWorkers : JobProducers π → ω) (InitSchedulers : JobProducers π → σ),
      initJobs fakeApp dataRetention messageExport esAggregator esIndexer
          ldapSync migrations InitWorkers InitSchedulers =
        ⟨⟨dataRetention.map (fun f => f fakeApp),
          messageExport.map (fun f => f fakeApp),
          esAggregator.map (fun f => f fakeApp),
          esIndexer.map (fun f => f fakeApp),
          ldapSync.map (fun f => f fakeApp),
          migrations.map (fun f => f fakeApp)⟩,
          some (InitWorkers
            ⟨dataRetention.map (fun f => f fakeApp),
              messageExport.map (fun f => f fakeApp),
              esAggregator.map (fun f => f fakeApp),
              esIndexer.map (fun f => f fakeApp),
              ldapSync.map (fun f => f fakeApp),
              migrations.map (fun f => f fakeApp)⟩),
          some (InitSchedulers
            ⟨dataRetention.map (fun f => f fakeApp),
              messageExport.map (fun f => f fakeApp),
              esAggregator.map (fun f => f fakeApp),
              esIndexer.map (fun f => f fakeApp),
              ldapSync.map (fun f => f fakeApp),
              migrations.map (fun f => f fakeApp)⟩)⟩ := by
  intro α π ω σ fakeApp dataRetention messageExport esAggregator esIndexer
    ldapSync migrations InitWorkers InitSchedulers
  cases dataRetention <;> cases messageExport <;> cases esAggregator <;>
    cases esIndexer <;> cases ldapSync <;> cases migrations <;> rfl

/-- C7: `getSystemInstallDate` fails exactly when the store lookup fails or
the stored value does not parse as a base-10 signed 64-bit integer.  A store
error is returned to the caller unchanged, paired with 0; a parse failure is
returned as the fixed typed application error carrying HTTP status 500; a
successful parse returns the value with no error. -/
theorem get_system_install_date_errors :
    ∀ (GetByName : String → Except AppError SystemRow) (parseDetail : String),
      (∀ e, GetByName SYSTEM_INSTALLATION_DATE_KEY = Except.error e →
        getSystemInstallDate GetByName parseDetail = (0, some e)) ∧
      (∀ row, GetByName SYSTEM_INSTALLATION_DATE_KEY = Except.ok row →
        ParseInt row.Value = none →
        getSystemInstallDate GetByName parseDetail =
          (0, some (installDateParseError parseDetail))) ∧
      (∀ row v, GetByName SYSTEM_INSTALLATION_DATE_KEY = Except.ok row →
        ParseInt row.Value = some v →
        getSystemInstallDate GetByName parseDetail = (v, none)) ∧
      (installDateParseError parseDetail).StatusCode = 500 ∧
      ((getSystemInstallDate GetByName parseDetail).2 = none ↔
        ∃ row v, GetByName SYSTEM_INSTALLATION_DATE_KEY = Except.ok row ∧
          ParseInt row.Value = some v) := by
  intro GetByName parseDetail
  refine ⟨?_, ?_, ?_, rfl, ?_⟩
  · intro e he
    simp [getSystemInstallDate, he]
  · intro row hrow hparse
    simp [getSystemInstallDate, hrow, hparse]
  · intro row v hrow hparse
    simp [getSystemInstallDate, hrow, hparse]
  · cases hres : GetByName SYSTEM_INSTALLATION_DATE_KEY with
    | error e => simp [getSystemInstallDate, hres]
    | ok row =>
      cases hparse : ParseInt row.Value with
      | none => simp [getSystemInstallDate, hres, hparse]
      | some v =>
        simp only [getSystemInstallDate, hres, hparse]
        exact ⟨fun _ => ⟨row, v, rfl, hparse⟩, fun _ => trivial⟩

/-- Witness for C7 at concrete stores: a successful lookup of "12345" parses
to 12345 with no error; a failed lookup returns the store error unchanged
with value 0; an unparsable value yields the typed 500 error. -/
theorem get_system_install_date_errors_witness :
    getSystemInstallDate (fun _ => Except.ok ⟨SYSTEM_INSTALLATION_DATE_KEY, "12345"⟩) "" =
      (12345, none) ∧
    getSystemInstallDate (fun _ => Except.error ⟨"w", "store.err", "boom", 500⟩) "" =
      (0, some ⟨"w", "store.err", "boom", 500⟩) ∧
    getSystemInstallDate (fun _ => Except.ok ⟨SYSTEM_INSTALLATION_DATE_KEY, "not-a-number"⟩) "" =
      (0, some (installDateParseError "")) :=
  ⟨(get_system_install_date_errors
      (fun _ => Except.ok ⟨SYSTEM_INSTALLATION_DATE_KEY, "12345"⟩) "").2.2.1
      ⟨SYSTEM_INSTALLATION_DATE_KEY, "12345"⟩ 12345 rfl (by decide),
    (get_system_install_date_errors
      (fun _ => Except.error ⟨"w", "store.err", "boom", 500⟩) "").1
      ⟨"w", "store.err", "boom", 500⟩ rfl,
    (get_system_install_date_errors
      (fun _ => Except.ok ⟨SYSTEM_INSTALLATION_DATE_KEY, "not-a-number"⟩) "").2.1
      ⟨SYSTEM_INSTALLATION_DATE_KEY, "not-a-number"⟩ rfl (by decide)⟩

end MattermostApp
